import Mathlib

/-!
Shallow embedding of `src/tasks/boundprobability.py` (the bound-probability
task of the hypervelocity-star catalog), together with theorems settling the
specification claims about it.

Conventions of the embedding:
* Python floats that the claims exercise are modelled as exact rationals `ℚ`
  (the numeric literals involved, e.g. `9999.9`, `0.6827`, are decimal and the
  operations on them in the claims are comparisons and field arithmetic).
* NumPy length-N sample arrays are modelled as functions from the sample
  index `ℕ` to the entry type; an N×m matrix is `ℕ → ℕ → ℚ` (row, column).
* Fallible Python code (operations that raise) is modelled with `Option`.
* External numeric libraries (the seeded numpy RNG, the scipy Beta quantile
  function, the numpy real power and square root) are modelled as explicit
  function parameters; their documented contracts (determinism given a seed,
  monotonicity of a quantile function) appear as hypotheses where a claim
  needs them.
-/

namespace BoundProbability

/-! ### Module-level configuration constants (lines 20-38 of the source) -/

/-- Constant `epoch = 2000.0`. -/
def epoch : ℚ := 2000

/-- Constant `k = 4.74057`, the conversion factor (km/s per kpc per arcsec/yr). -/
def k : ℚ := 474057 / 100000

/-- Constant `errorifmissing = 0.5`, the missing-error substitution fraction. -/
def errorifmissing : ℚ := 1 / 2

/-- Constant `confidenceintervalcoverage = 0.6827`. -/
def confidenceintervalcoverage : ℚ := 6827 / 10000

/-- Constant `vescmethod = "williams2017"`, the escape-velocity policy selector. -/
def vescmethod : String := "williams2017"

/-- The sentinel error value `9999.9` meaning "unconstrained". -/
def sentinel : ℚ := 99999 / 10

/-! ### Measurement entries and the best-measurement selector
(`best_parameter`, lines 40-51 of the source) -/

/-- A catalog measurement entry, with the fields `best_parameter` and the
engine read: a value, an optional symmetric error `e_value`, optional
asymmetric errors `e_lower_value`/`e_upper_value`, and the derived flag. -/
structure Quantity where
  value : ℚ
  e_value : Option ℚ := none
  e_lower_value : Option ℚ := none
  e_upper_value : Option ℚ := none
  derived : Bool := false
deriving DecidableEq, Inhabited

/-- The condition `QUANTITY.DERIVED == True` on line 44 of the source.
`QUANTITY.DERIVED` is the astrocats key constant, a `str` subclass equal to
the string "derived"; comparing it to the Python boolean `True` yields
`False` on every loop iteration (the entry `PARAMETER[i]` is not consulted),
so this is the constant `false`. -/
def quantityDerivedEqTrue : Bool := false

/-- The error metric one loop iteration of `best_parameter` assigns to entry
`PARAMETER[i]` (lines 43-49): start from the sentinel `9999.9`; skip the
entry if `QUANTITY.DERIVED == True` (never, see `quantityDerivedEqTrue`);
else use `e_value` when present, else `max(e_lower_value, e_upper_value)`
when both are present, else leave the sentinel. -/
def errEntry (q : Quantity) : ℚ :=
  if quantityDerivedEqTrue then sentinel
  else
    match q.e_value with
    | some e => e
    | none =>
      match q.e_lower_value, q.e_upper_value with
      | some lo, some hi => max lo hi
      | _, _ => sentinel

/-- Model of `np.argmin` over a nonempty list, returning the FIRST index attaining the
minimum together with the minimum value (the numpy tie-breaking rule). -/
def argminAux : List ℚ → ℕ → ℕ → ℚ → ℕ × ℚ
  | [], _, besti, bestv => (besti, bestv)
  | x :: xs, i, besti, bestv =>
    if x < bestv then argminAux xs (i + 1) i x
    else argminAux xs (i + 1) besti bestv

/-- Function `best_parameter(PARAMETER)` (lines 40-51): computes the error metric of
every entry and returns `(np.argmin(err), err[argmin])`.  On an empty list
`np.argmin` raises `ValueError`, modelled as `none`. -/
def best_parameter (PARAMETER : List Quantity) : Option (ℕ × ℚ) :=
  match PARAMETER.map errEntry with
  | [] => none
  | e :: es => some (argminAux es 1 0 e)

/-! ### Seed derivation and the chain-based escape-velocity sampler
(`craft_seed` and `vescsolar_sampler`, lines 67-77 of the source) -/

/-- Function `craft_seed(SEED)` (lines 70-74): the product of
`ord(SEED[i % len(SEED)])` for `i in range(2*(len(SEED)+3))`, reduced modulo
`4294967296 = 2^32`.  For the empty string, `i % 0` raises
`ZeroDivisionError` in Python (the index range `range(6)` is nonempty), so
the result is `none`. -/
def craft_seed (SEED : String) : Option ℕ :=
  let nSEED := SEED.length
  if nSEED = 0 then none
  else
    some ((((List.range (2 * (nSEED + 3))).map
      (fun i => (SEED.toList.getD (i % nSEED) 'a').toNat)).prod) % 4294967296)

/-- Stated from the claim/spec words, for comparison with `craft_seed`: the
product of the character codes of `NAME` taken cyclically over
`2*(len(NAME)+3)` indices, reduced modulo `2^32`. -/
def claimed_seed (NAME : String) : ℕ :=
  (((List.range (2 * (NAME.length + 3))).map
    (fun i => (NAME.toList.getD (i % NAME.length) 'a').toNat)).prod) % 2 ^ 32

/-- Columns of interest of the `spherical_powerlaw.dat` chain (lines 65-66):
`VESCSOLAR = chain[:,5]`, the solar escape-velocity samples. -/
def VESCSOLAR (chain : ℕ → ℕ → ℚ) : ℕ → ℚ := fun r => chain r 5

/-- Column `ALPHA = chain[:,6]`, the power-law slope samples. -/
def ALPHA (chain : ℕ → ℕ → ℚ) : ℕ → ℚ := fun r => chain r 6

/-- Function `vescsolar_sampler(NAME, NSAMP)` (lines 67-77).  The numpy global RNG is
modelled by the parameter `npChoice`: `npChoice seed nrows NSAMP` is the
index sequence produced by `np.random.seed(seed)` followed by
`np.random.choice(range(nrows), NSAMP)` — a fixed (deterministic) function
of the seed, which is the documented numpy seeding contract.  The sampler
derives the seed from `NAME` with `craft_seed` (propagating its failure on
the empty name) and returns the chain columns 5 and 6 read at the chosen
row for each sample index. -/
def vescsolar_sampler (npChoice : ℕ → ℕ → ℕ → ℕ → ℕ) (chain : ℕ → ℕ → ℚ)
    (nrows : ℕ) (NAME : String) (NSAMP : ℕ) : Option ((ℕ → ℚ) × (ℕ → ℚ)) :=
  (craft_seed NAME).map fun seed =>
    let choice_chain : ℕ → ℕ := npChoice seed nrows NSAMP
    (fun i => VESCSOLAR chain (choice_chain i),
     fun i => ALPHA chain (choice_chain i))

/-- The escape-velocity samples under the `williams2017` policy (line 250):
`kine_vesc = kine_vesc_solar * np.power(kine_galrad/kine_samples_solar[:,0],
-kine_alpha/2.0)`.  `pw` models `np.power` with real exponents. -/
def williams_kine_vesc (pw : ℚ → ℚ → ℚ)
    (kine_vesc_solar kine_alpha kine_galrad rsun : ℕ → ℚ) : ℕ → ℚ :=
  fun i => kine_vesc_solar i * pw (kine_galrad i / rsun i) (-(kine_alpha i) / 2)

/-- The sampled galactocentric radius (line 245): law of cosines from the
sampled solar radius `solar[:,0]`, the sampled distance `dist`, and the
galactic coordinates entering through `cos b * cos l`.  `sq` models
`np.sqrt`. -/
def kine_galrad (sq : ℚ → ℚ) (solar : ℕ → ℕ → ℚ) (dist : ℕ → ℚ)
    (cosb cosl : ℚ) : ℕ → ℚ :=
  fun i =>
    sq (solar i 0 ^ 2 + dist i ^ 2 - 2 * solar i 0 * dist i * cosb * cosl)

/-! ### Solar-reflex correction and the missing-data substitution
(lines 224-241 of the source) -/

/-- The heliocentric solar-velocity samples (lines 228-229):
`kine_vhel = kine_samples_solar[:,2:]` with the disk-rotation component
`kine_samples_solar[:,1]` added into column 1 (the V component). -/
def kine_vhel (solar : ℕ → ℕ → ℚ) : ℕ → ℕ → ℚ :=
  fun n i => solar n (i + 2) + if i = 1 then solar n 1 else 0

/-- Matrix `kine_D = np.einsum("ei,ni->ne", B.T, kine_vhel)` (line 230): for each
sample `n`, component `e`, the contraction `∑ i, B[i,e] * vhel[n,i]` — the
solar-reflex prediction vector of that sample, expressed in the
(radial, μ_α, μ_δ) observation frame. -/
def kine_D (B vhel : ℕ → ℕ → ℚ) : ℕ → ℕ → ℚ :=
  fun n e => B 0 e * vhel n 0 + B 1 e * vhel n 1 + B 2 e * vhel n 2

/-- Lines 233-239: when proper motions are absent, columns 1 and 2 of the
corrected kinematic samples are overwritten with `-1.0 * kine_D[:,1]` and
`-1.0 * kine_D[:,2]`; when radial velocities are absent, column 3 is
overwritten with `-1.0 * kine_D[:,0]`.  Other columns are untouched. -/
def reflex_substitute (havepropermotions havevelocities : Bool)
    (corrected D : ℕ → ℕ → ℚ) : ℕ → ℕ → ℚ :=
  fun n j =>
    if havepropermotions = false ∧ (j = 1 ∨ j = 2) then -1 * D n j
    else if havevelocities = false ∧ j = 3 then -1 * D n 0
    else corrected n j

/-! ### Distance-prior override from a photometric distance
(lines 189-206 of the source) -/

/-- Lines 194-206: from the photometric-distance measurement list, select
the best entry; `kine_mu` is its value; `kine_sigma` is the selector's
metric when `best_lumdist_err < 9999.0`, else `errorifmissing * kine_mu`;
then `kine_L = kine_sigma^2 / kine_mu` and `kine_k = kine_mu / kine_L`.
Returns `(kine_L, kine_k)`; `none` when the list is empty (the selector
raises). -/
def lumdist_override (lumdist : List Quantity) : Option (ℚ × ℚ) :=
  (best_parameter lumdist).map fun bi =>
    let kine_mu := (lumdist.getD bi.1 default).value
    let kine_sigma := if bi.2 < 9999 then bi.2 else errorifmissing * kine_mu
    let kine_L := kine_sigma ^ 2 / kine_mu
    (kine_L, kine_mu / kine_L)

/-! ### The Beta posterior percentiles (lines 263-267 of the source) -/

/-- Shape parameter `kine_betaa = kine_bound_n + 0.5` (line 265). -/
def kine_betaa (kine_bound_n : ℕ) : ℚ := kine_bound_n + 1 / 2

/-- Shape parameter `kine_betab = kine_samples_n - kine_bound_n + 0.5` (line 266). -/
def kine_betab (kine_bound_n kine_samples_n : ℕ) : ℚ :=
  (kine_samples_n : ℚ) - kine_bound_n + 1 / 2

/-- The three probabilities at which line 267 queries `beta.ppf`:
`confidenceintervalcoverage/2.0`, `0.5`, and
`1.0 - confidenceintervalcoverage/2.0`. -/
def boundprob_quantile_probs : List ℚ :=
  [confidenceintervalcoverage / 2, 1 / 2, 1 - confidenceintervalcoverage / 2]

/-- Stated from the claim/spec words, for comparison with
`boundprob_quantile_probs`: quantiles at `(1 - coverage)/2`, the median, and
`1 - (1 - coverage)/2`, with coverage `confidenceintervalcoverage`. -/
def claimed_quantile_probs : List ℚ :=
  [(1 - confidenceintervalcoverage) / 2, 1 / 2,
   1 - (1 - confidenceintervalcoverage) / 2]

/-- Percentiles `kine_bound_percentiles` (line 267): `beta.ppf` queried at the three
probabilities of `boundprob_quantile_probs` with shape parameters
`(kine_betaa, kine_betab)`.  `ppf` models `scipy.stats.beta.ppf`
(probability, a, b); its values lie in `ℝ`. -/
def kine_bound_percentiles (ppf : ℚ → ℚ → ℚ → ℝ)
    (kine_bound_n kine_samples_n : ℕ) : ℝ × ℝ × ℝ :=
  let a := kine_betaa kine_bound_n
  let b := kine_betab kine_bound_n kine_samples_n
  (ppf (confidenceintervalcoverage / 2) a b, ppf (1 / 2) a b,
   ppf (1 - confidenceintervalcoverage / 2) a b)

/-! ### Control flow of `do_boundprobability` (lines 54-96, 244-277)

The per-star loop body is modelled at the granularity the control-flow
claims need: which entries are warned about, which are silently skipped,
and for which the main computation is attempted. -/

/-- The data-presence facts about one catalog key that the loop's guards
read: whether `catalog.add_entry(oname)` succeeds (line 86; a merged-away
entry raises), and whether the `RA`, `DEC`, `LUM_DIST` and `PARALLAX`
fields are present in the entry (lines 93-94). -/
structure StarRecord where
  lookupOk : Bool
  hasRA : Bool
  hasDec : Bool
  hasLumdist : Bool
  hasParallax : Bool
deriving DecidableEq

/-- Whether `vescmethod` is one of the two recognized policy values
(lines 59 and 61). -/
def methodRecognized (m : String) : Bool :=
  m == "galpy" || m == "williams2017"

/-- Whether the setup code before the loop logs the misconfiguration
warning ("vescmethod was not properly defined, please check.")
(lines 78-79): exactly when neither policy branch matched.  Nothing else in
the setup stops execution — the loop on line 82 runs regardless. -/
def misconfigWarning (m : String) : Bool := !methodRecognized m

/-- What one iteration of the per-star loop does for one catalog key. -/
structure PerStarResult where
  /-- A warning naming this entry was logged (only the merged-away warning
  of lines 88-90). -/
  warned : Bool
  /-- Derived quantities were written back for this entry
  (lines 270-276). -/
  wrote : Bool
  /-- The main per-star computation (sampling onwards, lines 98-276) was
  entered for this entry. -/
  attempted : Bool
deriving DecidableEq

/-- One iteration of the loop for key `s` under policy `m` (lines 82-276):
a failed lookup logs a warning and continues; a missing sky position, or
missing parallax and photometric distance together, continues silently
(lines 93-96) — no warning, no write; otherwise the computation runs and,
if the policy was recognized, writes the derived quantities.  Under an
unrecognized policy the computation is still entered, but `kine_vesc` is
never assigned (neither branch of lines 246-250 runs), so line 264 raises
`NameError` before any write. -/
def process_entry (m : String) (s : StarRecord) : PerStarResult :=
  if !s.lookupOk then ⟨true, false, false⟩
  else if !s.hasRA || !s.hasDec || (!s.hasLumdist && !s.hasParallax) then
    ⟨false, false, false⟩
  else ⟨false, methodRecognized m, true⟩

/-- The per-star loop (line 82).  The `NameError` raised under an
unrecognized policy is uncaught (the `try` of line 85 only wraps
`add_entry`), so it aborts the whole loop at the first entry whose
computation is attempted. -/
def run_loop (m : String) : List StarRecord → List PerStarResult
  | [] => []
  | s :: rest =>
    let r := process_entry m s
    if r.attempted && !methodRecognized m then [r]
    else r :: run_loop m rest

/-- Function `do_boundprobability`, at control-flow granularity: the setup either
logs the misconfiguration warning or not, and the per-star loop runs over
all keys. -/
def do_boundprobability (m : String) (stars : List StarRecord) :
    Bool × List PerStarResult :=
  (misconfigWarning m, run_loop m stars)

/-- Holds exactly when some per-star computation was entered during the
run. -/
def processingTookPlace (run : Bool × List PerStarResult) : Bool :=
  run.2.any (·.attempted)

/-- Helper for stating a concrete monotone quantile function: the cast of
the queried probability itself. -/
def castPpf : ℚ → ℚ → ℚ → ℝ := fun p _ _ => (p : ℝ)

/-! ## Theorems settling the claims -/

/-- Claim C1 (code bug).  The source line `if QUANTITY.DERIVED == True:`
compares the class constant to `True`, which is always false, so derived
entries are never skipped: on the list whose first entry is primary with
symmetric error `0.5` and whose second entry is DERIVED with symmetric
error `0.1`, `best_parameter` returns the derived entry (index 1) even
though a non-derived entry has an error field — contradicting the claimed
invariant.  (The particular two-entry example of the claim, a primary entry
with error `0.1` against a derived entry with no error, does return the
primary entry, last conjunct.) -/
theorem C1_selector_returns_derived_entry :
    best_parameter [⟨1, some (1/2), none, none, false⟩,
                    ⟨2, some (1/10), none, none, true⟩] = some (1, 1/10) ∧
    (Quantity.mk 2 (some (1/10)) none none true).derived = true ∧
    (Quantity.mk 1 (some (1/2)) none none false).e_value = some (1/2) ∧
    best_parameter [⟨1, some (1/10), none, none, false⟩,
                    ⟨2, none, none, none, true⟩] = some (0, 1/10) := by
  refine ⟨?_, rfl, rfl, ?_⟩ <;>
    norm_num [best_parameter, errEntry, argminAux, quantityDerivedEqTrue,
      sentinel]

/-- Claim C2 (code bug).  Line 267 queries the Beta posterior quantiles at
`coverage/2 = 0.34135` and `1 - coverage/2 = 0.65865` — an interval of
realized coverage `1 - coverage = 0.3173` — whereas the claim (and the
meaning of `confidenceintervalcoverage = 0.6827`) requires the quantiles
`(1 - coverage)/2 = 0.15865` and `1 - (1 - coverage)/2 = 0.84135`.  The two
probability lists differ. -/
theorem C2_quantile_probs_mismatch :
    boundprob_quantile_probs ≠ claimed_quantile_probs ∧
    boundprob_quantile_probs = [6827/20000, 1/2, 13173/20000] ∧
    claimed_quantile_probs = [3173/20000, 1/2, 16827/20000] := by
  refine ⟨?_, ?_, ?_⟩ <;>
    norm_num [boundprob_quantile_probs, claimed_quantile_probs,
      confidenceintervalcoverage]

/-- Claim C3, counterexample.  With the unrecognized policy value `"nfw"`
and a single catalog entry that has full data, the setup logs the warning
but the per-star loop is still entered and the per-star computation is
attempted — refuting "no per-star processing takes place under a
misconfigured policy". -/
theorem C3_counterexample :
    misconfigWarning "nfw" = true ∧
    processingTookPlace
      (do_boundprobability "nfw" [⟨true, true, true, true, true⟩]) = true := by
  decide

/-- Claim C3 as amended: under an unrecognized escape-velocity policy the
warning is logged but the engine does NOT abort before the per-star loop:
entries whose computation is not attempted (failed lookups, silent skips)
are traversed normally, and the first entry whose computation is attempted
aborts the run with an uncaught `NameError` (`kine_vesc` undefined), with
nothing written for it. -/
theorem C3_misconfigured_policy_still_enters_loop (m : String)
    (hm : methodRecognized m = false) (s : StarRecord)
    (rest : List StarRecord) :
    misconfigWarning m = true ∧
    ((process_entry m s).attempted = false →
      run_loop m (s :: rest) = process_entry m s :: run_loop m rest) ∧
    ((process_entry m s).attempted = true →
      run_loop m (s :: rest) = [⟨false, false, true⟩]) := by
  refine ⟨by simp [misconfigWarning, hm], ?_, ?_⟩
  · intro h
    simp [run_loop, h]
  · intro h
    have hr : process_entry m s = ⟨false, false, true⟩ := by
      obtain ⟨lk, ra, dec, ld, px⟩ := s
      rw [process_entry] at h ⊢
      cases lk <;> cases ra <;> cases dec <;> cases ld <;> cases px <;>
        simp_all [hm]
    simp [run_loop, hr, hm]

/-- Witness for the amended claim C3 at the concrete policy `"nfw"`, a
full-data star and an empty tail. -/
theorem C3_misconfigured_policy_still_enters_loop_witness :
    methodRecognized "nfw" = false ∧
    (misconfigWarning "nfw" = true ∧
     ((process_entry "nfw" ⟨true, true, true, true, true⟩).attempted = false →
       run_loop "nfw" [⟨true, true, true, true, true⟩] =
         process_entry "nfw" ⟨true, true, true, true, true⟩ :: run_loop "nfw" []) ∧
     ((process_entry "nfw" ⟨true, true, true, true, true⟩).attempted = true →
       run_loop "nfw" [⟨true, true, true, true, true⟩] = [⟨false, false, true⟩])) :=
  ⟨by decide,
   C3_misconfigured_policy_still_enters_loop "nfw" (by decide)
     ⟨true, true, true, true, true⟩ []⟩

/-- Claim C8 (confirmed).  A catalog entry that is found but lacks RA, or
lacks Dec, or lacks both the photometric distance and the parallax, is
skipped silently: its loop iteration logs no warning, writes nothing,
attempts no computation, and the loop continues with the remaining
entries. -/
theorem C8_insufficient_data_skipped_silently (m : String) (s : StarRecord)
    (rest : List StarRecord) (hlook : s.lookupOk = true)
    (hmiss : s.hasRA = false ∨ s.hasDec = false ∨
      (s.hasLumdist = false ∧ s.hasParallax = false)) :
    process_entry m s = ⟨false, false, false⟩ ∧
    run_loop m (s :: rest) = process_entry m s :: run_loop m rest := by
  have hp : process_entry m s = ⟨false, false, false⟩ := by
    rw [process_entry]
    rcases hmiss with h | h | ⟨h1, h2⟩ <;> simp [hlook, *]
  exact ⟨hp, by simp [run_loop, hp]⟩

/-- Witness for claim C8: a concrete entry with sky position missing only
in Dec, processed under the configured policy, followed by one more
entry. -/
theorem C8_insufficient_data_skipped_silently_witness :
    (StarRecord.mk true true false true true).lookupOk = true ∧
    (StarRecord.mk true true false true true).hasDec = false ∧
    (process_entry vescmethod ⟨true, true, false, true, true⟩ =
      ⟨false, false, false⟩ ∧
     run_loop vescmethod [⟨true, true, false, true, true⟩,
                          ⟨true, true, true, true, true⟩] =
       process_entry vescmethod ⟨true, true, false, true, true⟩ ::
         run_loop vescmethod [⟨true, true, true, true, true⟩]) :=
  ⟨rfl, rfl,
   C8_insufficient_data_skipped_silently vescmethod
     ⟨true, true, false, true, true⟩ [⟨true, true, true, true, true⟩]
     rfl (Or.inr (Or.inl rfl))⟩

/-- Claim C4 (confirmed).  With proper motions absent, the substitution of
lines 233-235 makes the corrected tangential-velocity columns 1 and 2 equal
exactly `-1` times the corresponding components of the solar-reflex
prediction `kine_D`, so each of their sums with the prediction is exactly
zero for every sample index; and with radial velocity absent, column 3 is
likewise set to `-1` times component 0 of the prediction. -/
theorem C4_missing_data_reflex_cancellation (B solar corrected : ℕ → ℕ → ℚ)
    (havepropermotions havevelocities : Bool) (D : ℕ → ℕ → ℚ)
    (hD : D = kine_D B (kine_vhel solar)) (hpm : havepropermotions = false)
    (n : ℕ) :
    (reflex_substitute havepropermotions havevelocities corrected D n 1 =
       -1 * D n 1 ∧
     reflex_substitute havepropermotions havevelocities corrected D n 2 =
       -1 * D n 2 ∧
     reflex_substitute havepropermotions havevelocities corrected D n 1 +
       D n 1 = 0 ∧
     reflex_substitute havepropermotions havevelocities corrected D n 2 +
       D n 2 = 0) ∧
    (havevelocities = false →
      reflex_substitute havepropermotions havevelocities corrected D n 3 =
        -1 * D n 0) := by
  subst hpm
  have h1 : reflex_substitute false havevelocities corrected D n 1 =
      -1 * D n 1 := by
    simp [reflex_substitute]
  have h2 : reflex_substitute false havevelocities corrected D n 2 =
      -1 * D n 2 := by
    simp [reflex_substitute]
  refine ⟨⟨h1, h2, by rw [h1]; ring, by rw [h2]; ring⟩, fun hv => ?_⟩
  subst hv
  simp [reflex_substitute]

/-- Witness for claim C4 at the all-ones matrices, both flags false, sample
index 0. -/
theorem C4_missing_data_reflex_cancellation_witness :
    kine_D (fun _ _ => (1:ℚ)) (kine_vhel (fun _ _ => 1)) =
      kine_D (fun _ _ => 1) (kine_vhel (fun _ _ => 1)) ∧
    false = false ∧
    ((reflex_substitute false false (fun _ _ => 1)
        (kine_D (fun _ _ => 1) (kine_vhel (fun _ _ => 1))) 0 1 =
       -1 * kine_D (fun _ _ => 1) (kine_vhel (fun _ _ => 1)) 0 1 ∧
      reflex_substitute false false (fun _ _ => 1)
        (kine_D (fun _ _ => 1) (kine_vhel (fun _ _ => 1))) 0 2 =
       -1 * kine_D (fun _ _ => 1) (kine_vhel (fun _ _ => 1)) 0 2 ∧
      reflex_substitute false false (fun _ _ => 1)
        (kine_D (fun _ _ => 1) (kine_vhel (fun _ _ => 1))) 0 1 +
        kine_D (fun _ _ => 1) (kine_vhel (fun _ _ => 1)) 0 1 = 0 ∧
      reflex_substitute false false (fun _ _ => 1)
        (kine_D (fun _ _ => 1) (kine_vhel (fun _ _ => 1))) 0 2 +
        kine_D (fun _ _ => 1) (kine_vhel (fun _ _ => 1)) 0 2 = 0) ∧
     (false = false →
       reflex_substitute false false (fun _ _ => 1)
         (kine_D (fun _ _ => 1) (kine_vhel (fun _ _ => 1))) 0 3 =
         -1 * kine_D (fun _ _ => 1) (kine_vhel (fun _ _ => 1)) 0 0)) :=
  ⟨rfl, rfl,
   C4_missing_data_reflex_cancellation (fun _ _ => 1) (fun _ _ => 1)
     (fun _ _ => 1) false false
     (kine_D (fun _ _ => 1) (kine_vhel (fun _ _ => 1))) rfl rfl 0⟩

/-- Claim C5, counterexample.  The usable-error test on line 200 is
`best_lumdist_err < 9999.0`, not "below the 9999.9 sentinel": on a
photometric-distance list with a single primary entry of value `10` and
symmetric error `9999.5` — a metric below the sentinel — the code treats
the error as missing and substitutes `0.5 × 10 = 5`, giving
`(L, k) = (5/2, 4)` and hence `k·L² = 25`, not the claimed `9999.5²`. -/
theorem C5_counterexample :
    best_parameter [⟨10, some (99995/10), none, none, false⟩] =
      some (0, 99995/10) ∧
    (99995/10 : ℚ) < sentinel ∧
    lumdist_override [⟨10, some (99995/10), none, none, false⟩] =
      some (5/2, 4) ∧
    (4 : ℚ) * (5/2) ^ 2 = 25 ∧ ((99995:ℚ)/10) ^ 2 ≠ 25 := by
  refine ⟨?_, ?_, ?_, ?_, ?_⟩ <;>
    norm_num [best_parameter, lumdist_override, errEntry, argminAux,
      quantityDerivedEqTrue, sentinel, errorifmissing]

/-- Claim C5 as amended: the override matches the prior mean `k·L` to the
best photometric value and the variance `k·L²` to the square of its error,
where the error is the selector metric when it is strictly below `9999.0`
(the code threshold, not the `9999.9` sentinel) and
`errorifmissing × value` otherwise; stated away from the degenerate
divisions (nonzero value and nonzero substituted error). -/
theorem C5_override_matches_photometric_moments (lumdist : List Quantity)
    (bi : ℕ × ℚ) (hb : best_parameter lumdist = some bi)
    (hmu : (lumdist.getD bi.1 default).value ≠ 0)
    (hsig : (if bi.2 < 9999 then bi.2
             else errorifmissing * (lumdist.getD bi.1 default).value) ≠ 0) :
    ∃ L kk, lumdist_override lumdist = some (L, kk) ∧
      kk * L = (lumdist.getD bi.1 default).value ∧
      kk * L ^ 2 = (if bi.2 < 9999 then bi.2
                    else errorifmissing * (lumdist.getD bi.1 default).value) ^ 2 := by
  have hgen : ∀ mu sg : ℚ, mu ≠ 0 → sg ≠ 0 →
      mu / (sg ^ 2 / mu) * (sg ^ 2 / mu) = mu ∧
      mu / (sg ^ 2 / mu) * (sg ^ 2 / mu) ^ 2 = sg ^ 2 := by
    intro mu sg hm hs
    constructor
    · exact div_mul_cancel₀ _ (div_ne_zero (pow_ne_zero 2 hs) hm)
    · field_simp
      ring
  refine ⟨(if bi.2 < 9999 then bi.2
            else errorifmissing * (lumdist.getD bi.1 default).value) ^ 2 /
      (lumdist.getD bi.1 default).value,
    (lumdist.getD bi.1 default).value /
      ((if bi.2 < 9999 then bi.2
         else errorifmissing * (lumdist.getD bi.1 default).value) ^ 2 /
        (lumdist.getD bi.1 default).value), ?_,
    (hgen _ _ hmu hsig).1, (hgen _ _ hmu hsig).2⟩
  simp only [lumdist_override, hb, Option.map_some']

/-- Witness for the amended claim C5 at a single-entry list with value `10`
and symmetric error `1`. -/
theorem C5_override_matches_photometric_moments_witness :
    best_parameter [⟨10, some 1, none, none, false⟩] = some (0, 1) ∧
    (([⟨10, some 1, none, none, false⟩] :
        List Quantity).getD (0, (1:ℚ)).1 default).value ≠ 0 ∧
    (if ((0:ℕ), (1:ℚ)).2 < 9999 then ((0:ℕ), (1:ℚ)).2
     else errorifmissing *
       (([⟨10, some 1, none, none, false⟩] :
          List Quantity).getD (0, (1:ℚ)).1 default).value) ≠ 0 ∧
    (∃ L kk,
      lumdist_override [⟨10, some 1, none, none, false⟩] = some (L, kk) ∧
      kk * L = (([⟨10, some 1, none, none, false⟩] :
        List Quantity).getD (0, (1:ℚ)).1 default).value ∧
      kk * L ^ 2 = (if ((0:ℕ), (1:ℚ)).2 < 9999 then ((0:ℕ), (1:ℚ)).2
        else errorifmissing *
          (([⟨10, some 1, none, none, false⟩] :
             List Quantity).getD (0, (1:ℚ)).1 default).value) ^ 2) :=
  ⟨by norm_num [best_parameter, errEntry, argminAux, quantityDerivedEqTrue,
      sentinel],
   by norm_num,
   by norm_num,
   C5_override_matches_photometric_moments [⟨10, some 1, none, none, false⟩]
     (0, 1)
     (by norm_num [best_parameter, errEntry, argminAux,
       quantityDerivedEqTrue, sentinel])
     (by norm_num) (by norm_num)⟩

/-- Claim C6 (confirmed).  The chain-based sampler is deterministic in the
star identifier: two calls with the same `NAME` and `NSAMP` return the same
pair of sample sequences, and the RNG seed it uses is exactly the product
of the character codes of `NAME` taken cyclically over `2*(len(NAME)+3)`
indices, reduced modulo `2^32` (`claimed_seed`). -/
theorem C6_sampler_deterministic (npChoice : ℕ → ℕ → ℕ → ℕ → ℕ)
    (chain : ℕ → ℕ → ℚ) (nrows NSAMP : ℕ) (NAME : String)
    (h : NAME.length ≠ 0) :
    vescsolar_sampler npChoice chain nrows NAME NSAMP =
      vescsolar_sampler npChoice chain nrows NAME NSAMP ∧
    craft_seed NAME = some (claimed_seed NAME) := by
  refine ⟨rfl, ?_⟩
  simp only [craft_seed, claimed_seed, h, if_false]
  norm_num

/-- Witness for claim C6 at the identifier `"HVS1"`. -/
theorem C6_sampler_deterministic_witness :
    "HVS1".length ≠ 0 ∧
    (vescsolar_sampler (fun _ _ _ _ => 0) (fun _ _ => 0) 1 "HVS1" 2 =
       vescsolar_sampler (fun _ _ _ _ => 0) (fun _ _ => 0) 1 "HVS1" 2 ∧
     craft_seed "HVS1" = some (claimed_seed "HVS1")) :=
  ⟨by decide,
   C6_sampler_deterministic (fun _ _ _ _ => 0) (fun _ _ => 0) 1 2 "HVS1"
     (by decide)⟩

/-- Claim C7 (confirmed).  For any monotone quantile function (the scipy
`beta.ppf` contract), any `k_bound ≤ N` with `N ≥ 1`, the three computed
percentiles are ordered: lower bound ≤ median ≤ upper bound, because the
queried probabilities satisfy `0.34135 ≤ 0.5 ≤ 0.65865`. -/
theorem C7_percentiles_ordered (ppf : ℚ → ℚ → ℚ → ℝ)
    (hmono : ∀ a b p q : ℚ, p ≤ q → ppf p a b ≤ ppf q a b)
    (kine_bound_n kine_samples_n : ℕ)
    (hkN : kine_bound_n ≤ kine_samples_n) (hN : 1 ≤ kine_samples_n) :
    (kine_bound_percentiles ppf kine_bound_n kine_samples_n).1 ≤
      (kine_bound_percentiles ppf kine_bound_n kine_samples_n).2.1 ∧
    (kine_bound_percentiles ppf kine_bound_n kine_samples_n).2.1 ≤
      (kine_bound_percentiles ppf kine_bound_n kine_samples_n).2.2 := by
  unfold kine_bound_percentiles
  constructor <;>
    · apply hmono
      norm_num [confidenceintervalcoverage]

/-- Witness for claim C7: the quantile function returning the queried
probability itself, with `k_bound = 0` and `N = 1`. -/
theorem C7_percentiles_ordered_witness :
    (∀ a b p q : ℚ, p ≤ q → castPpf p a b ≤ castPpf q a b) ∧
    (0:ℕ) ≤ 1 ∧ (1:ℕ) ≤ 1 ∧
    ((kine_bound_percentiles castPpf 0 1).1 ≤
       (kine_bound_percentiles castPpf 0 1).2.1 ∧
     (kine_bound_percentiles castPpf 0 1).2.1 ≤
       (kine_bound_percentiles castPpf 0 1).2.2) :=
  ⟨fun a b p q hpq => by simp only [castPpf]; exact_mod_cast hpq,
   by decide, by decide,
   C7_percentiles_ordered castPpf
     (fun a b p q hpq => by simp only [castPpf]; exact_mod_cast hpq)
     0 1 (by decide) (by decide)⟩

/-- Claim C9 (confirmed).  Under the `williams2017` policy, for every
sample index `i` there is a single chain row — the randomly chosen one —
such that the solar escape velocity is its column 5, the slope is its
column 6, and the assembled escape-velocity sample equals
`chain[row,5] * (galrad_i / rsun_i) ^ (-chain[row,6]/2)`, with `galrad_i`
the law-of-cosines galactocentric radius of sample `i` and `rsun_i` the
sampled solar radius `solar[i,0]` at the same index. -/
theorem C9_vesc_from_single_chain_row (npChoice : ℕ → ℕ → ℕ → ℕ → ℕ)
    (chain : ℕ → ℕ → ℚ) (nrows NSAMP : ℕ) (NAME : String)
    (pw sq : ℚ → ℚ) (solar : ℕ → ℕ → ℚ) (dist : ℕ → ℚ) (cosb cosl : ℚ)
    (pw2 : ℚ → ℚ → ℚ) (vsal : (ℕ → ℚ) × (ℕ → ℚ))
    (hs : vescsolar_sampler npChoice chain nrows NAME NSAMP = some vsal)
    (i : ℕ) :
    ∃ row : ℕ, vsal.1 i = chain row 5 ∧ vsal.2 i = chain row 6 ∧
      williams_kine_vesc pw2 vsal.1 vsal.2
        (kine_galrad sq solar dist cosb cosl) (fun n => solar n 0) i =
        chain row 5 *
          pw2 (kine_galrad sq solar dist cosb cosl i / solar i 0)
            (-(chain row 6) / 2) := by
  rw [vescsolar_sampler] at hs
  cases hcs : craft_seed NAME with
  | none =>
    rw [hcs] at hs
    simp at hs
  | some seed =>
    rw [hcs] at hs
    have hpair := Option.some.inj hs
    subst hpair
    exact ⟨npChoice seed nrows NSAMP i, rfl, rfl, rfl⟩

/-- Witness for claim C9 at the identifier `"x"` (whose crafted seed is
`120^8 mod 2^32 = 2164260864`), the identity choice function and a chain
whose entry at row `r`, column `c` is `r + c`. -/
theorem C9_vesc_from_single_chain_row_witness :
    vescsolar_sampler (fun _ _ _ j => j) (fun r c => (r:ℚ) + c) 3 "x" 2 =
      some (fun j => VESCSOLAR (fun r c => (r:ℚ) + c) j,
            fun j => ALPHA (fun r c => (r:ℚ) + c) j) ∧
    (∃ row : ℕ,
      (fun j => VESCSOLAR (fun r c => (r:ℚ) + c) j,
       fun j => ALPHA (fun r c => (r:ℚ) + c) j).1 0 =
        (fun r c => (r:ℚ) + c) row 5 ∧
      (fun j => VESCSOLAR (fun r c => (r:ℚ) + c) j,
       fun j => ALPHA (fun r c => (r:ℚ) + c) j).2 0 =
        (fun r c => (r:ℚ) + c) row 6 ∧
      williams_kine_vesc (fun a b => a + b)
        (fun j => VESCSOLAR (fun r c => (r:ℚ) + c) j,
         fun j => ALPHA (fun r c => (r:ℚ) + c) j).1
        (fun j => VESCSOLAR (fun r c => (r:ℚ) + c) j,
         fun j => ALPHA (fun r c => (r:ℚ) + c) j).2
        (kine_galrad (fun x => x) (fun _ _ => 1) (fun _ => 1) 1 1)
        (fun n => (fun _ _ => (1:ℚ)) n 0) 0 =
        (fun r c => (r:ℚ) + c) row 5 *
          (fun a b => a + b)
            (kine_galrad (fun x => x) (fun _ _ => 1) (fun _ => 1) 1 1 0 /
              (fun _ _ => (1:ℚ)) 0 0)
            (-((fun r c => (r:ℚ) + c) row 6) / 2)) :=
  ⟨by
      rw [vescsolar_sampler,
        show craft_seed "x" = some 2164260864 from by decide]
      rfl,
   C9_vesc_from_single_chain_row (fun _ _ _ j => j) (fun r c => (r:ℚ) + c)
     3 2 "x" (fun x => x) (fun x => x) (fun _ _ => 1) (fun _ => 1) 1 1
     (fun a b => a + b)
     (fun j => VESCSOLAR (fun r c => (r:ℚ) + c) j,
      fun j => ALPHA (fun r c => (r:ℚ) + c) j)
     (by
       rw [vescsolar_sampler,
         show craft_seed "x" = some 2164260864 from by decide]
       rfl)
     0⟩

/-- Claim C10 (confirmed).  For every non-empty identifier the crafted
seed exists and lies in `[0, 2^32)` — a valid numpy seed (the natural
number is nonnegative by type) — while for the empty identifier the
computation fails (`i % 0` raises `ZeroDivisionError`), so the sampler
cannot be seeded from an empty star name. -/
theorem C10_craft_seed_valid_range (SEED : String) (h : SEED.length ≠ 0) :
    (∃ v, craft_seed SEED = some v ∧ v < 2 ^ 32) ∧ craft_seed "" = none := by
  constructor
  · refine ⟨((List.range (2 * (SEED.length + 3))).map
        (fun i => (SEED.toList.getD (i % SEED.length) 'a').toNat)).prod %
        4294967296, ?_, ?_⟩
    · simp only [craft_seed, h, if_false]
    · calc ((List.range (2 * (SEED.length + 3))).map
            (fun i => (SEED.toList.getD (i % SEED.length) 'a').toNat)).prod %
            4294967296 < 4294967296 := Nat.mod_lt _ (by norm_num)
        _ = 2 ^ 32 := by norm_num
  · rfl

/-- Witness for claim C10 at the identifier `"x"`. -/
theorem C10_craft_seed_valid_range_witness :
    "x".length ≠ 0 ∧
    ((∃ v, craft_seed "x" = some v ∧ v < 2 ^ 32) ∧ craft_seed "" = none) :=
  ⟨by decide, C10_craft_seed_valid_range "x" (by decide)⟩

end BoundProbability
